import Mathlib

/-
Shallow embedding of src/subcommand/wallet/send.rs (the "send" subcommand core).

The embedding models the sequential request/resolve/dispatch cycle of
Send::run as a pure function from the request and a snapshot of all
collaborator responses (Env) to a result together with the ordered list
of collaborator operations performed (the trace).  Machine values (txids,
addresses, amounts, fee rates, inscription ids) are modelled as Nat;
BTreeMap / BTreeSet collections are modelled as association lists / lists.
-/

namespace GmartOrd

/-- A transaction output reference: transaction id plus output index (vout). -/
structure OutPoint where
  txid : Nat
  vout : Nat
deriving DecidableEq, Repr

/-- A satpoint: a byte offset within a specific transaction output. -/
structure SatPoint where
  outpoint : OutPoint
  offset : Nat
deriving DecidableEq, Repr

/-- The user's send target, src lines 77-103: a raw satpoint, an inscription
identifier, or a plain cardinal amount. -/
inductive Outgoing where
  | satPoint (sp : SatPoint)
  | inscriptionId (id : Nat)
  | amount (value : Nat)
deriving DecidableEq, Repr

/-- Postage policy handed to the transaction builder, src lines 110-114:
either the platform default or an exact caller-requested amount. -/
inductive Target where
  | postage
  | exactPostage (amount : Nat)
deriving DecidableEq, Repr

/-- Error taxonomy of the send core.  Each constructor corresponds to one
bail/ensure/return-Err site in Send::run or its helpers:
voutOutOfBounds models the panic of the unchecked indexing at src line 61. -/
inductive SendError where
  | invalidTarget
  | notFound (id : Nat)
  | invalidRequest
  | lockFailed
  | ignoreOutdatedIndexError
  | voutOutOfBounds
  | selectionFailed
  | signingFailed
  | broadcastFailed
deriving DecidableEq, Repr

/-- The success result: the broadcast (or directly sent) transaction id. -/
structure Output where
  transaction : Nat
deriving DecidableEq, Repr

/-- The send request, mirroring struct Send (src lines 3-26) plus the
ignore_outdated_index flag read from the global Options at src line 49. -/
structure Send where
  address : Nat
  outgoing : Outgoing
  utxo : List OutPoint
  coin_control : Bool
  fee_rate : Nat
  postage : Option Nat
  force_input : List OutPoint
  ignore_outdated_index : Bool
deriving DecidableEq, Repr

/-- Snapshot of all collaborator responses for one invocation: chain-data
lookups (index), node RPC results, and the transaction builder outcome. -/
structure Env where
  chainUnspent : List (OutPoint × Nat)
  lockedOutputs : List OutPoint
  inscriptions : List (SatPoint × Nat)
  runic : List OutPoint
  inscriptionSatpoint : Nat → Option SatPoint
  rawTx : Nat → List Nat
  lockOk : List OutPoint → Bool
  sendToAddressTxid : Nat
  changeAddr : Nat → Nat
  buildResult : Option Nat
  signResult : Nat → Option Nat
  broadcastResult : Nat → Option Nat

/-- One collaborator operation, recorded in program order. -/
inductive Event where
  | indexUpdate
  | walletLoad
  | getUnspentOutputs
  | getRawTransaction (txid : Nat)
  | getLockedOutputs
  | getInscriptions
  | getRunicOutputs
  | getInscriptionSatpointById (id : Nat)
  | getChangeAddress (n : Nat)
  | lockUnspent (outs : List OutPoint)
  | sendToAddress (addr amount feeRate : Nat)
  | build (sp : SatPoint) (insc : List (SatPoint × Nat))
      (unspent : List (OutPoint × Nat)) (locked runic : List OutPoint)
      (addr : Nat) (change : List Nat) (feeRate : Nat) (postageT : Target)
      (forceInput : List OutPoint)
  | signTransaction (tx : Nat)
  | sendRawTransaction (hex : Nat)
deriving DecidableEq, Repr

/-- True exactly for the spend-side operations: locking, direct transfer,
transaction construction, signing and broadcast. -/
def Event.isSpendOp : Event → Bool
  | .lockUnspent _ => true
  | .sendToAddress _ _ _ => true
  | .build _ _ _ _ _ _ _ _ _ _ => true
  | .signTransaction _ => true
  | .sendRawTransaction _ => true
  | _ => false

/-- BTreeMap::insert on the association-list model: the new binding
replaces any previous binding of the same key. -/
def insertAssoc (m : List (OutPoint × Nat)) (k : OutPoint) (v : Nat) :
    List (OutPoint × Nat) :=
  (k, v) :: m.filter (fun p => decide (p.1 ≠ k))

/-- Pricing of one caller-supplied utxo, src line 61: the fetched raw
transaction's output list indexed by the outpoint's vout.  The source
indexes without a bounds check, so an out-of-range vout is a panic; the
model makes the partiality explicit with Option. -/
def priceOutput (env : Env) (op : OutPoint) : Option Nat :=
  (env.rawTx op.txid)[op.vout]?

/-- The pricing loop over caller-supplied utxos, src lines 57-64: each
entry costs one get_raw_transaction node-RPC call and is inserted into the
running map; an out-of-range vout aborts (panic, modelled as an error). -/
def priceLoop (env : Env) :
    List OutPoint → List (OutPoint × Nat) →
    Except SendError (List (OutPoint × Nat)) × List Event
  | [], m => (.ok m, [])
  | op :: rest, m =>
    match priceOutput env op with
    | none => (.error .voutOutOfBounds, [.getRawTransaction op.txid])
    | some v =>
      let r := priceLoop env rest (insertAssoc m op v)
      (r.1, .getRawTransaction op.txid :: r.2)

/-- The result map of the pricing loop when every entry is in range. -/
def pricedMap (env : Env) :
    List OutPoint → List (OutPoint × Nat) → List (OutPoint × Nat)
  | [], m => m
  | op :: rest, m =>
    pricedMap env rest (insertAssoc m op ((priceOutput env op).getD 0))

/-- Satpoint-target resolution, src lines 78-91: fail if the satpoint is a
key of the inscription map; fail if its outpoint is runic; otherwise the
satpoint is the resolved target unchanged. -/
def resolveSatPoint (sp : SatPoint) (insc : List (SatPoint × Nat))
    (runic : List OutPoint) : Except SendError SatPoint :=
  if ∃ p ∈ insc, p.1 = sp then .error .invalidTarget
  else if sp.outpoint ∈ runic then .error .invalidTarget
  else .ok sp

/-- The set of outputs Send::lock_inscriptions asks the node to lock,
src lines 145-155: unspent-output keys whose outpoint hosts some
inscription, chained with all runic outputs. -/
def lock_inscriptions_set (insc : List (SatPoint × Nat))
    (runic : List OutPoint) (unspent : List (OutPoint × Nat)) :
    List OutPoint :=
  (unspent.map Prod.fst).filter
    (fun u => decide (∃ p ∈ insc, p.1.outpoint = u)) ++ runic

/-- Send::lock_inscriptions, src lines 139-162: issue one lock_unspent
call for the protected set; a false reply is fatal (LockFailed). -/
def lock_inscriptions (env : Env) (insc : List (SatPoint × Nat))
    (runic : List OutPoint) (unspent : List (OutPoint × Nat)) :
    Except SendError Unit × List Event :=
  let l := lock_inscriptions_set insc runic unspent
  if env.lockOk l then (.ok (), [.lockUnspent l])
  else (.error .lockFailed, [.lockUnspent l])

/-- Send::send_amount, src lines 164-180: a single sendtoaddress node-RPC
call whose returned txid is the result. -/
def send_amount (env : Env) (amount address fee_rate : Nat) :
    Nat × List Event :=
  (env.sendToAddressTxid, [.sendToAddress address amount fee_rate])

/-- The operations of the construction path up to and including the build
call, src lines 105-128: two change-address derivations and the builder
invocation with the full argument tuple of src lines 116-127. -/
def buildEvents (req : Send) (env : Env) (sp : SatPoint) : List Event :=
  [.getChangeAddress 0, .getChangeAddress 1,
    .build sp env.inscriptions env.chainUnspent env.lockedOutputs env.runic
      req.address [env.changeAddr 0, env.changeAddr 1] req.fee_rate
      (match req.postage with
        | some p => Target.exactPostage p
        | none => Target.postage)
      req.force_input]

/-- The constrained construction path, src lines 105-136: derive two
change addresses, pick the postage policy, invoke the builder, then sign
and broadcast; each failure aborts the rest of the pipeline. -/
def buildPath (req : Send) (env : Env) (t : List Event) (sp : SatPoint) :
    Except SendError Output × List Event :=
  match env.buildResult with
  | none => (.error .selectionFailed, t ++ buildEvents req env sp)
  | some utx =>
    match env.signResult utx with
    | none =>
      (.error .signingFailed,
        t ++ buildEvents req env sp ++ [.signTransaction utx])
    | some hex =>
      match env.broadcastResult hex with
      | none =>
        (.error .broadcastFailed,
          t ++ buildEvents req env sp
            ++ [.signTransaction utx, .sendRawTransaction hex])
      | some txid =>
        (.ok { transaction := txid },
          t ++ buildEvents req env sp
            ++ [.signTransaction utx, .sendRawTransaction hex])

/-- The dispatch on the outgoing target, src lines 77-136.  Note that the
unspent set used from line 66 on is the freshly re-queried chainUnspent
(the shadowing binding at src line 68), not the coin-control/priced map. -/
def runMain (req : Send) (env : Env) (t : List Event) :
    Except SendError Output × List Event :=
  match req.outgoing with
  | .satPoint sp =>
    match resolveSatPoint sp env.inscriptions env.runic with
    | .error e => (.error e, t)
    | .ok sp2 => buildPath req env t sp2
  | .inscriptionId id =>
    match env.inscriptionSatpoint id with
    | none => (.error (.notFound id), t ++ [.getInscriptionSatpointById id])
    | some sp => buildPath req env (t ++ [.getInscriptionSatpointById id]) sp
  | .amount a =>
    if req.coin_control = true ∨ req.utxo ≠ [] then (.error .invalidRequest, t)
    else
      match lock_inscriptions env env.inscriptions env.runic env.chainUnspent with
      | (.error e, t2) => (.error e, t ++ t2)
      | (.ok _, t2) =>
        let r := send_amount env a req.address req.fee_rate
        (.ok { transaction := r.1 }, t ++ t2 ++ r.2)

/-- Runs the pricing loop over the caller-supplied utxos (src lines 57-64)
on the first unspent map, then discards the priced map exactly as the
shadowing rebinding at src lines 66-68 does, re-queries wallet and chain
data (src lines 66-75) and dispatches. -/
def runPriced (req : Send) (env : Env) (t : List Event)
    (first : List (OutPoint × Nat)) : Except SendError Output × List Event :=
  match priceLoop env req.utxo first with
  | (.error e, t1) => (.error e, t ++ t1)
  | (.ok _, t1) =>
    runMain req env
      (t ++ t1 ++ [.walletLoad, .getUnspentOutputs, .getLockedOutputs,
        .getInscriptions, .getRunicOutputs])

/-- Send::run, src lines 34-137: update the index, compute the first
unspent map (empty under coin-control; an immediate error when
ignore_outdated_index is set without coin-control; otherwise a wallet
unspent query), price the caller-supplied utxos, then dispatch. -/
def run (req : Send) (env : Env) : Except SendError Output × List Event :=
  if req.coin_control then
    runPriced req env [.indexUpdate] []
  else if req.ignore_outdated_index then
    (.error .ignoreOutdatedIndexError, [.indexUpdate])
  else
    runPriced req env [.indexUpdate, .walletLoad, .getUnspentOutputs]
      env.chainUnspent

/-- The trace of every request that reaches the dispatch: index update,
the first unspent query when coin-control is off, one raw-transaction
lookup per caller utxo, then the five re-query operations of src
lines 66-75. -/
def preTrace (req : Send) : List Event :=
  (if req.coin_control then [Event.indexUpdate]
   else [Event.indexUpdate, Event.walletLoad, Event.getUnspentOutputs])
  ++ req.utxo.map (fun op => Event.getRawTransaction op.txid)
  ++ [Event.walletLoad, Event.getUnspentOutputs, Event.getLockedOutputs,
      Event.getInscriptions, Event.getRunicOutputs]

/-- A concrete collaborator snapshot: one chain unspent output 100:0 worth
5000 sats, one inscription at satpoint 200:1:0, one runic output 300:0,
unknown inscription ids, three-output raw transactions, locks accepted. -/
def envA : Env where
  chainUnspent := [(⟨100, 0⟩, 5000)]
  lockedOutputs := []
  inscriptions := [(⟨⟨200, 1⟩, 0⟩, 7)]
  runic := [⟨300, 0⟩]
  inscriptionSatpoint := fun _ => none
  rawTx := fun _ => [10, 20, 30]
  lockOk := fun _ => true
  sendToAddressTxid := 999
  changeAddr := fun n => 40 + n
  buildResult := some 77
  signResult := fun t => some (t + 1)
  broadcastResult := fun h => some (h + 1)

/-- envA with lock requests rejected by the node. -/
def envLockRefused : Env := { envA with lockOk := fun _ => false }

/-- envA with no inscriptions and no runic outputs. -/
def envPlain : Env := { envA with inscriptions := [], runic := [] }

/-- A plain direct-amount request: send 5000 sats to address 1 at
fee rate 2, no coin-control, no explicit utxos. -/
def reqBase : Send where
  address := 1
  outgoing := .amount 5000
  utxo := []
  coin_control := false
  fee_rate := 2
  postage := none
  force_input := []
  ignore_outdated_index := false

/-- A coin-control satpoint send supplying only utxo 400:2. -/
def reqCoinControl : Send :=
  { reqBase with
    outgoing := .satPoint ⟨⟨500, 0⟩, 0⟩
    coin_control := true
    utxo := [⟨400, 2⟩] }

/-- A direct-amount request that also supplies an explicit utxo. -/
def reqAmountUtxo : Send := { reqBase with utxo := [⟨400, 0⟩] }

/-- A direct-amount request that also asks for coin-control. -/
def reqAmountCC : Send := { reqBase with coin_control := true }

/-- A send targeting inscription id 7. -/
def reqInscription : Send := { reqBase with outgoing := .inscriptionId 7 }

/-- A valid satpoint send with explicit postage of 10000 sats. -/
def reqSatPostage : Send :=
  { reqBase with
    outgoing := .satPoint ⟨⟨500, 0⟩, 0⟩
    postage := some 10000 }

/-- A request with ignore_outdated_index set but coin-control off. -/
def reqOutdated : Send := { reqBase with ignore_outdated_index := true }

/-- envA with inscription id 7 located at satpoint 500:0:0. -/
def envFound : Env :=
  { envA with
    inscriptionSatpoint := fun i =>
      if i = 7 then some ⟨⟨500, 0⟩, 0⟩ else none }

/-- When every caller-supplied utxo is in range, the pricing loop succeeds
and its trace is one raw-transaction lookup per utxo, in order. -/
lemma priceLoop_eq (env : Env) (utxo : List OutPoint) :
    ∀ m : List (OutPoint × Nat),
    (∀ op ∈ utxo, (priceOutput env op).isSome = true) →
    priceLoop env utxo m =
      (.ok (pricedMap env utxo m),
        utxo.map (fun op => Event.getRawTransaction op.txid)) := by
  induction utxo with
  | nil => intro m _; rfl
  | cons op rest ih =>
    intro m h
    have h1 : (priceOutput env op).isSome = true := h op (by simp)
    obtain ⟨v, hv⟩ := Option.isSome_iff_exists.mp h1
    have h2 := ih (insertAssoc m op v) (fun o ho => h o (by simp [ho]))
    simp only [priceLoop, pricedMap, hv, h2, Option.getD_some, List.map_cons]

/-- Under in-range pricing and a reachable dispatch, Send::run is the
dispatch on the common trace. -/
lemma run_eq (req : Send) (env : Env)
    (hpr : ∀ op ∈ req.utxo, (priceOutput env op).isSome = true)
    (hreach : req.coin_control = true ∨ req.ignore_outdated_index = false) :
    run req env = runMain req env (preTrace req) := by
  cases hcc : req.coin_control with
  | true =>
    simp only [run, runPriced, preTrace, hcc, if_true,
      priceLoop_eq env req.utxo [] hpr, List.append_assoc]
  | false =>
    have hioi : req.ignore_outdated_index = false := by
      rcases hreach with h | h
      · rw [hcc] at h; exact absurd h (by simp)
      · exact h
    simp only [run, runPriced, preTrace, hcc, hioi, if_false,
      priceLoop_eq env req.utxo env.chainUnspent hpr, List.append_assoc]
    rfl

/-- No spend-side operation appears in the common trace. -/
lemma preTrace_no_spend (req : Send) :
    ∀ e ∈ preTrace req, e.isSpendOp = false := by
  intro e he
  cases e <;> try rfl
  all_goals
    (cases hcc : req.coin_control <;> (rw [preTrace, hcc] at he; simp at he))

/-- Every event of the list handed to buildPath, including the two change
derivations and the build call itself, appears in the buildPath trace. -/
lemma buildPath_mem (req : Send) (env : Env) (t : List Event)
    (sp : SatPoint) (e : Event)
    (he : e ∈ t ++ buildEvents req env sp) :
    e ∈ (buildPath req env t sp).2 := by
  rcases hb : env.buildResult with _ | utx
  · simp only [buildPath, hb]; exact he
  · rcases hs : env.signResult utx with _ | hex
    · simp only [buildPath, hb, hs]; exact List.mem_append_left _ he
    · rcases hbr : env.broadcastResult hex with _ | txid
      · simp only [buildPath, hb, hs, hbr]; exact List.mem_append_left _ he
      · simp only [buildPath, hb, hs, hbr]; exact List.mem_append_left _ he

/-- Claim C3: for a SatPoint outgoing, resolution fails with InvalidTarget
when the satpoint is a key of the inscription map, fails with InvalidTarget
when its outpoint is runic, and otherwise yields the satpoint unchanged. -/
theorem resolve_satpoint_spec (sp : SatPoint) (insc : List (SatPoint × Nat))
    (runic : List OutPoint) :
    ((∃ p ∈ insc, p.1 = sp) →
      resolveSatPoint sp insc runic = .error .invalidTarget)
    ∧ (sp.outpoint ∈ runic →
      resolveSatPoint sp insc runic = .error .invalidTarget)
    ∧ ((¬ ∃ p ∈ insc, p.1 = sp) → sp.outpoint ∉ runic →
      resolveSatPoint sp insc runic = .ok sp) := by
  unfold resolveSatPoint
  refine ⟨fun h => ?_, fun h => ?_, fun h1 h2 => ?_⟩
  · rw [if_pos h]
  · by_cases h1 : ∃ p ∈ insc, p.1 = sp
    · rw [if_pos h1]
    · rw [if_neg h1, if_pos h]
  · rw [if_neg h1, if_neg h2]

/-- Witness for C3 at concrete inputs: an inscription-hosting satpoint is
refused, a runic satpoint is refused, and a plain satpoint resolves. -/
theorem resolve_satpoint_spec_witness :
    resolveSatPoint ⟨⟨200, 1⟩, 0⟩ [(⟨⟨200, 1⟩, 0⟩, 7)] []
        = .error .invalidTarget
    ∧ resolveSatPoint ⟨⟨300, 0⟩, 1⟩ [] [⟨300, 0⟩] = .error .invalidTarget
    ∧ resolveSatPoint ⟨⟨500, 0⟩, 0⟩ [(⟨⟨200, 1⟩, 0⟩, 7)] [⟨300, 0⟩]
        = .ok ⟨⟨500, 0⟩, 0⟩ :=
  ⟨(resolve_satpoint_spec ⟨⟨200, 1⟩, 0⟩ [(⟨⟨200, 1⟩, 0⟩, 7)] []).1
      (by decide),
   (resolve_satpoint_spec ⟨⟨300, 0⟩, 1⟩ [] [⟨300, 0⟩]).2.1 (by decide),
   (resolve_satpoint_spec ⟨⟨500, 0⟩, 0⟩ [(⟨⟨200, 1⟩, 0⟩, 7)] [⟨300, 0⟩]).2.2
      (by decide) (by decide)⟩

/-- Claim C9: with ignore_outdated_index set and coin-control off, the run
fails at once with the dedicated error; no wallet load, no unspent-output
query and no send happen. -/
theorem ignore_outdated_index_guard (req : Send) (env : Env)
    (hioi : req.ignore_outdated_index = true)
    (hcc : req.coin_control = false) :
    (run req env).1 = .error .ignoreOutdatedIndexError
    ∧ (run req env).2 = [Event.indexUpdate]
    ∧ Event.walletLoad ∉ (run req env).2
    ∧ Event.getUnspentOutputs ∉ (run req env).2
    ∧ ∀ x y z : Nat, Event.sendToAddress x y z ∉ (run req env).2 := by
  have h : run req env = (.error .ignoreOutdatedIndexError, [.indexUpdate]) := by
    simp only [run, hioi, hcc, Bool.false_eq_true, if_false, if_true]
  rw [h]
  refine ⟨rfl, rfl, by simp, by simp, fun x y z => by simp⟩

/-- Witness for C9: the concrete outdated-index request fails before any
wallet-load, unspent-query or send operation. -/
theorem ignore_outdated_index_guard_witness :
    (run reqOutdated envA).1 = .error .ignoreOutdatedIndexError
    ∧ (run reqOutdated envA).2 = [Event.indexUpdate]
    ∧ Event.walletLoad ∉ (run reqOutdated envA).2
    ∧ Event.getUnspentOutputs ∉ (run reqOutdated envA).2
    ∧ ∀ x y z : Nat, Event.sendToAddress x y z ∉ (run reqOutdated envA).2 :=
  ignore_outdated_index_guard reqOutdated envA rfl rfl

/-- Claim C10: pricing a caller-supplied utxo indexes the fetched raw
transaction's outputs by vout with no bounds check; the lookup is defined
exactly when vout is within range, and a concrete out-of-range outpoint
shows the indexing is not total. -/
theorem utxo_vout_indexing :
    (∀ (env : Env) (op : OutPoint),
      op.vout < (env.rawTx op.txid).length →
        (priceOutput env op).isSome = true)
    ∧ priceOutput envA ⟨0, 3⟩ = none := by
  constructor
  · intro env op h
    simp [priceOutput, List.getElem?_eq_getElem h]
  · rfl

/-- Witness for C10: an in-range vout prices successfully. -/
theorem utxo_vout_indexing_witness :
    (priceOutput envA ⟨0, 0⟩).isSome = true :=
  utxo_vout_indexing.1 envA ⟨0, 0⟩ (by decide)

/-- Counterexample for C2: an Amount request with one explicit utxo does
fail with InvalidRequest, but a node-RPC raw-transaction lookup for that
utxo is performed before the failure. -/
theorem amount_with_utxo_rpc_before_failure :
    (run reqAmountUtxo envA).1 = .error .invalidRequest
    ∧ Event.getRawTransaction 400 ∈ (run reqAmountUtxo envA).2 :=
  ⟨rfl, by decide⟩

/-- Claim C2 as amended: an Amount request with coin-control or explicit
utxos fails with InvalidRequest and no spend-side operation (lock, direct
transfer, build, sign, broadcast) occurs, though a raw-transaction pricing
lookup is performed for each explicit utxo before the failure. -/
theorem amount_invalid_request_no_spend_op (req : Send) (env : Env) (a : Nat)
    (hout : req.outgoing = .amount a)
    (hcc : req.coin_control = true ∨ req.utxo ≠ [])
    (hpr : ∀ op ∈ req.utxo, (priceOutput env op).isSome = true)
    (hreach : req.coin_control = true ∨ req.ignore_outdated_index = false) :
    (run req env).1 = .error .invalidRequest
    ∧ (∀ op ∈ req.utxo, Event.getRawTransaction op.txid ∈ (run req env).2)
    ∧ ∀ e ∈ (run req env).2, e.isSpendOp = false := by
  have hres : run req env = (.error .invalidRequest, preTrace req) := by
    rw [run_eq req env hpr hreach]
    simp only [runMain, hout, if_pos hcc]
  rw [hres]
  refine ⟨rfl, fun op hop => ?_, preTrace_no_spend req⟩
  simp only [preTrace, List.mem_append, List.mem_map]
  exact Or.inl (Or.inr ⟨op, hop, rfl⟩)

/-- Witness for C2 (amended) at a concrete coin-control Amount request. -/
theorem amount_invalid_request_no_spend_op_witness :
    (run reqAmountCC envA).1 = .error .invalidRequest
    ∧ (∀ op ∈ reqAmountCC.utxo,
        Event.getRawTransaction op.txid ∈ (run reqAmountCC envA).2)
    ∧ ∀ e ∈ (run reqAmountCC envA).2, e.isSpendOp = false :=
  amount_invalid_request_no_spend_op reqAmountCC envA 5000 rfl
    (Or.inl rfl) (by decide) (Or.inl rfl)

/-- Claim C4: an InscriptionId outgoing is resolved through the chain-data
lookup: an empty lookup fails with NotFound and the lookup is the last
collaborator call of the run, while a successful lookup makes the
looked-up satpoint the resolved target of the construction path, the very
satpoint the builder is invoked with. -/
theorem inscription_id_resolution (req : Send) (env : Env) (id : Nat)
    (hout : req.outgoing = .inscriptionId id)
    (hpr : ∀ op ∈ req.utxo, (priceOutput env op).isSome = true)
    (hreach : req.coin_control = true ∨ req.ignore_outdated_index = false) :
    (env.inscriptionSatpoint id = none →
      (run req env).1 = .error (.notFound id)
      ∧ (run req env).2 =
          preTrace req ++ [Event.getInscriptionSatpointById id])
    ∧ ∀ sp : SatPoint, env.inscriptionSatpoint id = some sp →
        run req env =
          buildPath req env
            (preTrace req ++ [Event.getInscriptionSatpointById id]) sp
        ∧ Event.build sp env.inscriptions env.chainUnspent env.lockedOutputs
            env.runic req.address [env.changeAddr 0, env.changeAddr 1]
            req.fee_rate
            (match req.postage with
              | some p => Target.exactPostage p
              | none => Target.postage)
            req.force_input ∈ (run req env).2 := by
  constructor
  · intro hnone
    have hres : run req env =
        (.error (.notFound id),
          preTrace req ++ [Event.getInscriptionSatpointById id]) := by
      rw [run_eq req env hpr hreach]
      simp only [runMain, hout, hnone]
    rw [hres]
    exact ⟨rfl, rfl⟩
  · intro sp hsome
    have hres : run req env =
        buildPath req env
          (preTrace req ++ [Event.getInscriptionSatpointById id]) sp := by
      rw [run_eq req env hpr hreach]
      simp only [runMain, hout, hsome]
    refine ⟨hres, ?_⟩
    rw [hres]
    apply buildPath_mem
    apply List.mem_append_right
    simp [buildEvents]

/-- Witness for C4: the unknown-inscription request fails with NotFound,
the lookup terminating the trace, and the known-inscription request makes
its looked-up satpoint the builder's target. -/
theorem inscription_id_resolution_witness :
    ((run reqInscription envA).1 = .error (.notFound 7)
     ∧ (run reqInscription envA).2 =
         preTrace reqInscription ++ [Event.getInscriptionSatpointById 7])
    ∧ (run reqInscription envFound =
         buildPath reqInscription envFound
           (preTrace reqInscription ++ [Event.getInscriptionSatpointById 7])
           ⟨⟨500, 0⟩, 0⟩
       ∧ Event.build ⟨⟨500, 0⟩, 0⟩ envFound.inscriptions
           envFound.chainUnspent envFound.lockedOutputs envFound.runic
           reqInscription.address [envFound.changeAddr 0, envFound.changeAddr 1]
           reqInscription.fee_rate Target.postage reqInscription.force_input
         ∈ (run reqInscription envFound).2) :=
  ⟨(inscription_id_resolution reqInscription envA 7 rfl (by decide)
      (Or.inr rfl)).1 rfl,
   (inscription_id_resolution reqInscription envFound 7 rfl (by decide)
      (Or.inr rfl)).2 ⟨⟨500, 0⟩, 0⟩ rfl⟩

/-- Claim C5: on the direct-amount path the set handed to lock_unspent is
issued as one lock request, and it holds an output exactly when the output
is an unspent key hosting some inscription, or is runic. -/
theorem lock_set_spec (req : Send) (env : Env) (a : Nat)
    (hout : req.outgoing = .amount a)
    (hcc : req.coin_control = false)
    (hutxo : req.utxo = [])
    (hioi : req.ignore_outdated_index = false) :
    Event.lockUnspent
        (lock_inscriptions_set env.inscriptions env.runic env.chainUnspent)
      ∈ (run req env).2
    ∧ ∀ op : OutPoint,
        op ∈ lock_inscriptions_set env.inscriptions env.runic env.chainUnspent
          ↔ ((op ∈ env.chainUnspent.map Prod.fst
                ∧ ∃ p ∈ env.inscriptions, p.1.outpoint = op)
              ∨ op ∈ env.runic) := by
  constructor
  · have hpr : ∀ op ∈ req.utxo, (priceOutput env op).isSome = true := by
      rw [hutxo]; intro op hop; cases hop
    have hguard : ¬(req.coin_control = true ∨ req.utxo ≠ []) := by
      rw [hcc, hutxo]; simp
    rw [run_eq req env hpr (Or.inr hioi)]
    simp only [runMain, hout, if_neg hguard, lock_inscriptions]
    cases hl : env.lockOk
        (lock_inscriptions_set env.inscriptions env.runic env.chainUnspent) with
    | false => simp [hl]
    | true => simp [hl, send_amount]
  · intro op
    simp only [lock_inscriptions_set, List.mem_append, List.mem_filter,
      decide_eq_true_iff]

/-- Witness for C5 at the concrete direct-amount request: the lock request
is issued and the set characterization holds. -/
theorem lock_set_spec_witness :
    Event.lockUnspent
        (lock_inscriptions_set envA.inscriptions envA.runic envA.chainUnspent)
      ∈ (run reqBase envA).2
    ∧ ∀ op : OutPoint,
        op ∈ lock_inscriptions_set envA.inscriptions envA.runic envA.chainUnspent
          ↔ ((op ∈ envA.chainUnspent.map Prod.fst
                ∧ ∃ p ∈ envA.inscriptions, p.1.outpoint = op)
              ∨ op ∈ envA.runic) :=
  lock_set_spec reqBase envA 5000 rfl rfl rfl rfl

/-- Claim C6: when the node refuses the lock request on the direct-amount
path the run fails with LockFailed and no send_to_address call is made. -/
theorem lock_refused_aborts (req : Send) (env : Env) (a : Nat)
    (hout : req.outgoing = .amount a)
    (hcc : req.coin_control = false)
    (hutxo : req.utxo = [])
    (hioi : req.ignore_outdated_index = false)
    (hlock : env.lockOk
        (lock_inscriptions_set env.inscriptions env.runic env.chainUnspent)
      = false) :
    (run req env).1 = .error .lockFailed
    ∧ ∀ x y z : Nat, Event.sendToAddress x y z ∉ (run req env).2 := by
  have hpr : ∀ op ∈ req.utxo, (priceOutput env op).isSome = true := by
    rw [hutxo]; intro op hop; cases hop
  have hguard : ¬(req.coin_control = true ∨ req.utxo ≠ []) := by
    rw [hcc, hutxo]; simp
  have hres : run req env =
      (.error .lockFailed,
        preTrace req ++ [Event.lockUnspent
          (lock_inscriptions_set env.inscriptions env.runic env.chainUnspent)]) := by
    rw [run_eq req env hpr (Or.inr hioi)]
    simp only [runMain, hout, if_neg hguard, lock_inscriptions, hlock,
      Bool.false_eq_true, if_false]
  rw [hres]
  refine ⟨rfl, fun x y z h => ?_⟩
  rcases List.mem_append.mp h with h | h
  · have hno := preTrace_no_spend req _ h
    simp [Event.isSpendOp] at hno
  · simp at h

/-- Witness for C6 with the lock-refusing node snapshot. -/
theorem lock_refused_aborts_witness :
    (run reqBase envLockRefused).1 = .error .lockFailed
    ∧ ∀ x y z : Nat,
        Event.sendToAddress x y z ∉ (run reqBase envLockRefused).2 :=
  lock_refused_aborts reqBase envLockRefused 5000 rfl rfl rfl rfl rfl

/-- Claim C7: on the direct-amount path with the lock granted, the whole
trace is the chain queries, then the lock, then one send_to_address call,
whose txid is the result; no build, sign or broadcast step occurs. -/
theorem direct_amount_path (req : Send) (env : Env) (a : Nat)
    (hout : req.outgoing = .amount a)
    (hcc : req.coin_control = false)
    (hutxo : req.utxo = [])
    (hioi : req.ignore_outdated_index = false)
    (hlock : env.lockOk
        (lock_inscriptions_set env.inscriptions env.runic env.chainUnspent)
      = true) :
    (run req env).1 = .ok { transaction := env.sendToAddressTxid }
    ∧ (run req env).2 =
      [.indexUpdate, .walletLoad, .getUnspentOutputs, .walletLoad,
       .getUnspentOutputs, .getLockedOutputs, .getInscriptions,
       .getRunicOutputs,
       .lockUnspent
         (lock_inscriptions_set env.inscriptions env.runic env.chainUnspent),
       .sendToAddress req.address a req.fee_rate] := by
  have hpr : ∀ op ∈ req.utxo, (priceOutput env op).isSome = true := by
    rw [hutxo]; intro op hop; cases hop
  have hguard : ¬(req.coin_control = true ∨ req.utxo ≠ []) := by
    rw [hcc, hutxo]; simp
  have hres : run req env =
      (.ok { transaction := env.sendToAddressTxid },
        [.indexUpdate, .walletLoad, .getUnspentOutputs, .walletLoad,
         .getUnspentOutputs, .getLockedOutputs, .getInscriptions,
         .getRunicOutputs,
         .lockUnspent
           (lock_inscriptions_set env.inscriptions env.runic env.chainUnspent),
         .sendToAddress req.address a req.fee_rate]) := by
    rw [run_eq req env hpr (Or.inr hioi)]
    simp only [runMain, hout, if_neg hguard, lock_inscriptions, hlock,
      if_true, send_amount]
    simp [preTrace, hcc, hutxo]
  rw [hres]
  exact ⟨rfl, rfl⟩

/-- Witness for C7 at the concrete direct-amount request. -/
theorem direct_amount_path_witness :
    (run reqBase envA).1 = .ok { transaction := envA.sendToAddressTxid }
    ∧ (run reqBase envA).2 =
      [.indexUpdate, .walletLoad, .getUnspentOutputs, .walletLoad,
       .getUnspentOutputs, .getLockedOutputs, .getInscriptions,
       .getRunicOutputs,
       .lockUnspent
         (lock_inscriptions_set envA.inscriptions envA.runic envA.chainUnspent),
       .sendToAddress reqBase.address 5000 reqBase.fee_rate] :=
  direct_amount_path reqBase envA 5000 rfl rfl rfl rfl rfl

/-- Claim C8: on the construction path — entered by a valid SatPoint
outgoing or by an InscriptionId outgoing whose satpoint lookup succeeds —
the builder is invoked with ExactPostage p when an explicit postage p was
requested and the platform default policy otherwise, together with the
two freshly derived change addresses and the forced-input list; both
derivations appear in the trace. -/
theorem build_invocation_spec (req : Send) (env : Env) (sp : SatPoint)
    (hentry :
      (req.outgoing = .satPoint sp
        ∧ (¬ ∃ p ∈ env.inscriptions, p.1 = sp)
        ∧ sp.outpoint ∉ env.runic)
      ∨ ∃ id, req.outgoing = .inscriptionId id
          ∧ env.inscriptionSatpoint id = some sp)
    (hpr : ∀ op ∈ req.utxo, (priceOutput env op).isSome = true)
    (hreach : req.coin_control = true ∨ req.ignore_outdated_index = false) :
    Event.getChangeAddress 0 ∈ (run req env).2
    ∧ Event.getChangeAddress 1 ∈ (run req env).2
    ∧ Event.build sp env.inscriptions env.chainUnspent env.lockedOutputs
        env.runic req.address [env.changeAddr 0, env.changeAddr 1]
        req.fee_rate
        (match req.postage with
          | some p => Target.exactPostage p
          | none => Target.postage)
        req.force_input ∈ (run req env).2 := by
  have hres : ∃ t, run req env = buildPath req env t sp := by
    rcases hentry with ⟨hout, hins, hrunic⟩ | ⟨id, hout, hsome⟩
    · refine ⟨preTrace req, ?_⟩
      rw [run_eq req env hpr hreach]
      simp only [runMain, hout, resolveSatPoint, if_neg hins, if_neg hrunic]
    · refine ⟨preTrace req ++ [Event.getInscriptionSatpointById id], ?_⟩
      rw [run_eq req env hpr hreach]
      simp only [runMain, hout, hsome]
  obtain ⟨t, hres⟩ := hres
  rw [hres]
  refine ⟨?_, ?_, ?_⟩ <;>
    (apply buildPath_mem
     apply List.mem_append_right
     simp [buildEvents])

/-- Witness for C8 at both construction-path entries: the satpoint send
with explicit postage 10000 invokes the builder with ExactPostage 10000,
and the inscription-id send with no explicit postage invokes it with the
default policy; each with change addresses 40 and 41 and the empty
forced-input list. -/
theorem build_invocation_spec_witness :
    (Event.getChangeAddress 0 ∈ (run reqSatPostage envA).2
     ∧ Event.getChangeAddress 1 ∈ (run reqSatPostage envA).2
     ∧ Event.build ⟨⟨500, 0⟩, 0⟩ envA.inscriptions envA.chainUnspent
         envA.lockedOutputs envA.runic reqSatPostage.address
         [envA.changeAddr 0, envA.changeAddr 1] reqSatPostage.fee_rate
         (Target.exactPostage 10000) reqSatPostage.force_input
       ∈ (run reqSatPostage envA).2)
    ∧ (Event.getChangeAddress 0 ∈ (run reqInscription envFound).2
     ∧ Event.getChangeAddress 1 ∈ (run reqInscription envFound).2
     ∧ Event.build ⟨⟨500, 0⟩, 0⟩ envFound.inscriptions envFound.chainUnspent
         envFound.lockedOutputs envFound.runic reqInscription.address
         [envFound.changeAddr 0, envFound.changeAddr 1]
         reqInscription.fee_rate Target.postage reqInscription.force_input
       ∈ (run reqInscription envFound).2) :=
  ⟨build_invocation_spec reqSatPostage envA ⟨⟨500, 0⟩, 0⟩
     (Or.inl ⟨rfl, by decide, by decide⟩) (by decide) (Or.inr rfl),
   build_invocation_spec reqInscription envFound ⟨⟨500, 0⟩, 0⟩
     (Or.inr ⟨7, rfl, rfl⟩) (by decide) (Or.inr rfl)⟩

/-- Claim C1 fails on the code: at a coin-control send that supplies only
utxo 400:2, the builder is invoked with the freshly re-queried chain
unspent set, which misses the caller-supplied output and holds the
chain-sourced output 100:0 instead — the shadowing rebinding at src
line 68 discards the coin-control narrowing. -/
theorem coin_control_discarded_on_build_path :
    reqCoinControl.coin_control = true
    ∧ reqCoinControl.utxo = [⟨400, 2⟩]
    ∧ Event.build ⟨⟨500, 0⟩, 0⟩ [] [(⟨100, 0⟩, 5000)] [] [] 1 [40, 41] 2
        Target.postage [] ∈ (run reqCoinControl envPlain).2
    ∧ envPlain.chainUnspent = [(⟨100, 0⟩, 5000)]
    ∧ (⟨400, 2⟩ : OutPoint) ∉ ([(⟨100, 0⟩, 5000)] :
        List (OutPoint × Nat)).map Prod.fst
    ∧ (⟨100, 0⟩ : OutPoint) ∉ reqCoinControl.utxo := by
  refine ⟨rfl, rfl, by decide, rfl, by decide, by decide⟩

end GmartOrd
